import Mathlib

/-!
Verification development for the docker-ovs-plugin network driver
(src/ovs/ovs_bridge.go and src/ovs/utils.go).

Shallow embedding conventions:
- OVSDB values (Go interface values stored in libovsdb rows) are the
  inductive `Value`; a row (libovsdb.Row, a map from column name to value)
  is an association list `Row`.  Go maps are modelled extensionally by
  association lists: Go map iteration order is unspecified, and every read
  in the source is a key lookup or a search, so only lookup behaviour is
  observable.
- The in-process mirror `ovsdbCache` and the remote database state share
  the shape `DBState`: a total function from table name to the table rows
  (a Go map read of a missing key yields the zero value, i.e. the empty
  table, which a total function models directly).
- Fallible Go code returns `Except`; a Go panic (out-of-range slice,
  failed type assertion, nil dereference) and the process-fatal
  log.Fatalf paths are modelled as `Option.none` on an outer `Option`
  layer.
- Go string slicing is byte based; identifiers handled here are ASCII, so
  `String.take` and `String.length` coincide with the Go behaviour.
-/

namespace OvsPlugin

/-- A column value as stored in a libovsdb row (Go interface value). -/
inductive Value where
  | str (s : String)
  | bool (b : Bool)
  | uuid (u : String)
  | uuidSet (us : List String)
  | int (n : Int)
deriving DecidableEq

/-- A database row: column name to value (libovsdb.Row.Fields).  The zero
row (libovsdb.Row{}, compared with reflect.DeepEqual in the source) is the
empty list. -/
abbrev Row := List (String × Value)

/-- One table: row identifier (uuid) to row. -/
abbrev Table := List (String × Row)

/-- The shape shared by the ovsdbCache mirror and the remote database:
table name to table.  A table never touched is empty, matching a Go map
read of a missing key. -/
abbrev DBState := String → Table

def emptyDB : DBState := fun _ => []

/-- Row update delivered by a table-update notification
(libovsdb.RowUpdate): the old and the new image of the row. -/
structure RowUpdate where
  old : Row
  new : Row
deriving DecidableEq

/-- Updates for one table: row identifier to row update
(libovsdb.TableUpdate.Rows). -/
abbrev TableUpdate := List (String × RowUpdate)

/-- One update batch: table name to table update
(libovsdb.TableUpdates.Updates). -/
abbrev TableUpdates := List (String × TableUpdate)

/-- Write a row under a uuid: extensional model of a Go map store. -/
def rowSet (rows : Table) (u : String) (r : Row) : Table :=
  (u, r) :: rows.filter (fun p => p.1 ≠ u)

/-- Remove a uuid: extensional model of Go delete on a map. -/
def rowDel (rows : Table) (u : String) : Table :=
  rows.filter (fun p => p.1 ≠ u)

/-- Inner loop body of populateCache (src/ovs/utils.go:417-424): a row
whose new image is non-empty is inserted or replaced, a row whose new
image is the empty row is deleted. -/
def applyRowUpdate (tbl : String) (c : DBState) (p : String × RowUpdate) : DBState :=
  if p.2.new = [] then
    fun t => if t = tbl then rowDel (c t) p.1 else c t
  else
    fun t => if t = tbl then rowSet (c t) p.1 p.2.new else c t

/-- Per-table loop of populateCache.  The source also allocates the inner
map when the table key is new; extensionally that is a no-op. -/
def applyTableUpdate (c : DBState) (q : String × TableUpdate) : DBState :=
  q.2.foldl (applyRowUpdate q.1) c

/-- populateCache (src/ovs/utils.go:411-426): apply one update batch to
the cache.  Go map iteration order is unspecified; distinct tables and
distinct uuids commute, so a list order is a faithful model. -/
def populateCache (c : DBState) (ups : TableUpdates) : DBState :=
  ups.foldl applyTableUpdate c

/-- Replay a sequence of update batches in order. -/
def replayAll (c : DBState) (bs : List TableUpdates) : DBState :=
  bs.foldl populateCache c

/-- Observable content of the cache: the row stored for a table and uuid. -/
def cacheGet (c : DBState) (t u : String) : Option Row :=
  List.lookup u (c t)

/-- Override fold: the last hit of g wins, otherwise the accumulator. -/
def ovr {α β : Type} (g : β → Option α) (l : List β) (a : Option α) : Option α :=
  l.foldl (fun acc x => match g x with | some r => some r | none => acc) a

/-- Last new image recorded for uuid u inside one table update. -/
def lastNewRow (tu : TableUpdate) (u : String) : Option Row :=
  ovr (fun p => if p.1 = u then some p.2.new else none) tu none

/-- Last new image recorded for (t, u) inside one batch. -/
def lastNewBatch (b : TableUpdates) (t u : String) : Option Row :=
  ovr (fun q => if q.1 = t then lastNewRow q.2 u else none) b none

/-- Last new image recorded for (t, u) across a batch sequence. -/
def lastNewAll (bs : List TableUpdates) (t u : String) : Option Row :=
  ovr (fun b => lastNewBatch b t u) bs none

/-- All (table, uuid) pairs mentioned by a batch sequence, deduplicated. -/
def allKeys (bs : List TableUpdates) : List (String × String) :=
  (bs.flatMap (fun b => b.flatMap (fun q => q.2.map (fun p => (q.1, p.1))))).dedup

/-- One single-row batch entry per key of L carrying the last new image
that the sequence recorded for that key. -/
def condenseList (bs : List TableUpdates) (L : List (String × String)) : TableUpdates :=
  L.filterMap (fun k => (lastNewAll bs k.1 k.2).map (fun r => (k.1, [(k.2, ⟨[], r⟩)])))

/-- The single batch holding, per (table, uuid), only the last new image
of that row in the sequence (the empty row when the last event deleted
it). -/
def condense (bs : List TableUpdates) : TableUpdates :=
  condenseList bs (allKeys bs)

/-! ### OVSDB operations and the transaction semantics

The remote database is only reached through libovsdb.Operation lists
submitted with Transact.  The model below executes the success path of a
transaction: operations apply in order, each yielding a reply.  Named
uuids (Operation.UUIDName) are used directly as the row identifiers of
inserted rows, a deterministic stand-in for the fresh uuids the real
server would mint and substitute for the symbolic names. -/

/-- The kind of a libovsdb operation used by this driver. -/
inductive OpKind where
  | select
  | insert
  | delete
  | mutate
deriving DecidableEq

/-- Set mutator of a libovsdb mutation. -/
inductive Mutator where
  | insert
  | delete
deriving DecidableEq

/-- libovsdb.NewMutation column-mutator-value triple; the values used by
the driver are always sets of uuids. -/
structure Mutation where
  column : String
  mutator : Mutator
  value : List String
deriving DecidableEq

/-- libovsdb.NewCondition with the == relation (the only one used). -/
structure Cond where
  column : String
  value : Value
deriving DecidableEq

/-- libovsdb.Operation restricted to the fields this driver populates. -/
structure Operation where
  op : OpKind
  table : String
  row : Row
  uuidName : String
  mutations : List Mutation
  whereC : List Cond
deriving DecidableEq

def selOp (table : String) (w : List Cond) : Operation :=
  ⟨OpKind.select, table, [], "", [], w⟩

def insOp (table : String) (row : Row) (uuidName : String) : Operation :=
  ⟨OpKind.insert, table, row, uuidName, [], []⟩

def delRowsOp (table : String) (w : List Cond) : Operation :=
  ⟨OpKind.delete, table, [], "", [], w⟩

def mutOp (table : String) (muts : List Mutation) (w : List Cond) : Operation :=
  ⟨OpKind.mutate, table, [], "", muts, w⟩

/-- libovsdb.OperationResult restricted to the fields the driver reads. -/
structure Reply where
  error : String
  details : String
  rows : List Row
deriving DecidableEq

def okReply : Reply := ⟨"", "", []⟩

/-- A row satisfies an == condition; the _uuid column names the row
identifier rather than a stored field. -/
def matchCond (u : String) (r : Row) (c : Cond) : Bool :=
  if c.column = "_uuid" then c.value == Value.uuid u
  else List.lookup c.column r == some c.value

def matchConds (u : String) (r : Row) (w : List Cond) : Bool :=
  w.all (matchCond u r)

/-- Apply one set mutation to a row: union for insert, difference for
delete; a row without that set column is left unchanged. -/
def applyMutation (m : Mutation) (r : Row) : Row :=
  match List.lookup m.column r with
  | some (Value.uuidSet s) =>
      let s' : List String :=
        match m.mutator with
        | Mutator.insert => s ++ m.value.filter (fun v => ¬ v ∈ s)
        | Mutator.delete => s.filter (fun v => ¬ v ∈ m.value)
      r.map (fun p => if p.1 = m.column then (p.1, Value.uuidSet s') else p)
  | _ => r

def applyMutations (ms : List Mutation) (r : Row) : Row :=
  ms.foldl (fun acc m => applyMutation m acc) r

/-- Execute one operation against the database (success path), returning
its reply and the next state. -/
def runOp (db : DBState) (o : Operation) : Reply × DBState :=
  match o.op with
  | OpKind.select =>
      (⟨"", "", ((db o.table).filter (fun p => matchConds p.1 p.2 o.whereC)).map (fun p => p.2)⟩, db)
  | OpKind.insert =>
      (okReply, fun t => if t = o.table then rowSet (db t) o.uuidName o.row else db t)
  | OpKind.delete =>
      (okReply, fun t => if t = o.table then (db t).filter (fun p => ¬ matchConds p.1 p.2 o.whereC) else db t)
  | OpKind.mutate =>
      (okReply, fun t =>
        if t = o.table then
          (db t).map (fun p => if matchConds p.1 p.2 o.whereC then (p.1, applyMutations o.mutations p.2) else p)
        else db t)

/-- ovsdb.Transact on the success path: run the operations in order and
collect one reply per operation. -/
def transact (db : DBState) (ops : List Operation) : List Reply × DBState :=
  ops.foldl (fun acc o => let ro := runOp acc.2 o; (acc.1 ++ [ro.1], ro.2)) ([], db)

/-! ### Transaction reply validation

createOvsdbBridge (src/ovs/ovs_bridge.go:181-190) fails the transaction
when the reply count is short or any reply carries an error; deleteBridge
(src/ovs/ovs_bridge.go:266-278) only logs a short reply count and fails
only on a reply that carries an error, embedding the offending operation
in the message when the reply index is within the operation list. -/

/-- A transaction failure: the message of the first error encountered
and, when the source formats it into the message, the offending
operation. -/
structure TxnError where
  msg : String
  offending : Option Operation
deriving DecidableEq

/-- First reply carrying a non-empty error, as the source loops find it. -/
def firstBadReply : List Reply → Option Reply
  | [] => none
  | o :: rest => if o.error ≠ "" then some o else firstBadReply rest

/-- Reply validation of createOvsdbBridge: reject a short reply list,
then reject on the first reply with a non-empty error (both source
branches format the same message). -/
def checkCreateReply (nops : Nat) (r : List Reply) : Except TxnError Unit :=
  if r.length < nops then
    Except.error ⟨"Number of Replies should be atleast equal to number of Operations", none⟩
  else
    match firstBadReply r with
    | some o =>
        Except.error ⟨"Transaction Failed due to an error :" ++ o.error ++ " details : " ++ o.details, none⟩
    | none => Except.ok ()

/-- Reply-scanning loop of deleteBridge, carrying the reply index.  A
short reply list is only logged there, so no count check rejects. -/
def checkDeleteReplyAux (ops : List Operation) (i : Nat) : List Reply → Except TxnError Unit
  | [] => Except.ok ()
  | o :: rest =>
      if o.error ≠ "" then
        if i < ops.length then
          Except.error ⟨"Transaction Failed due to an error: " ++ o.error ++ " in operation", ops.get? i⟩
        else
          Except.error ⟨"Transaction Failed due to an error : " ++ o.error, none⟩
      else checkDeleteReplyAux ops (i + 1) rest

/-- Reply validation of deleteBridge (src/ovs/ovs_bridge.go:266-278). -/
def checkDeleteReply (ops : List Operation) (r : List Reply) : Except TxnError Unit :=
  checkDeleteReplyAux ops 0 r

/-! ### Bridge lifecycle manager -/

/-- getRootUUID (src/ovs/utils.go:404-409): the first Open_vSwitch row
identifier found in the cache (Go map range order is unspecified; the
list head models the first key visited). -/
def getRootUUID (cache : DBState) : String :=
  match cache "Open_vSwitch" with
  | [] => ""
  | p :: _ => p.1

/-- portExists (src/ovs/utils.go:253-276): select the Port rows named
portName and report whether any exists. -/
def portExists (db : DBState) (portName : String) : Except String Bool :=
  let operations := [selOp "Port" [⟨"name", Value.str portName⟩]]
  let reply := (transact db operations).1
  if reply.length < operations.length then
    Except.error "Number of Replies should be at least equal to number of Operations"
  else
    match reply with
    | [] => Except.error "Number of Replies should be at least equal to number of Operations"
    | r0 :: _ =>
        if r0.error ≠ "" then
          Except.error ("Transaction Failed due to an error: " ++ r0.error)
        else if r0.rows.length = 0 then Except.ok false
        else Except.ok true

/-- The five-operation insert transaction of createOvsdbBridge
(src/ovs/ovs_bridge.go:111-178): Interface, Port, Bridge and BridgeOpt
rows plus the mutation adding the bridge to the root row. -/
def createBridgeOps (cache : DBState) (bridgeName servicetype : String) : List Operation :=
  let insertIntfOp := insOp "Interface" [("name", Value.str bridgeName), ("type", Value.str "internal")] "intf"
  let insertPortOp := insOp "Port" [("name", Value.str bridgeName), ("interfaces", Value.uuid "intf")] "port"
  let insertBridgeOp := insOp "Bridge"
    [("name", Value.str bridgeName), ("stp_enable", Value.bool false), ("ports", Value.uuid "port")] "bridge"
  let insertBridgeOptOp :=
    ⟨OpKind.insert, "BridgeOpt", [("name", Value.str bridgeName), ("service_type", Value.str servicetype)], "", [], []⟩
  let mutateOp := mutOp "Open_vSwitch" [⟨"bridges", Mutator.insert, ["bridge"]⟩]
    [⟨"_uuid", Value.uuid (getRootUUID cache)⟩]
  [insertIntfOp, insertPortOp, insertBridgeOp, insertBridgeOptOp, mutateOp]

/-- createOvsdbBridge (src/ovs/ovs_bridge.go:111-192): submit the insert
transaction and validate the replies. -/
def createOvsdbBridge (cache : DBState) (db : DBState) (bridgeName servicetype : String) :
    Except TxnError Unit × DBState :=
  let operations := createBridgeOps cache bridgeName servicetype
  let tr := transact db operations
  (checkCreateReply operations.length tr.1, tr.2)

/-- createBridgeIface (src/ovs/ovs_bridge.go:102-108): calls
createOvsdbBridge, logs any failure, and returns nil unconditionally. -/
def createBridgeIface (cache : DBState) (db : DBState) (name servicetype : String) :
    Except String Unit × DBState :=
  let res := createOvsdbBridge cache db name servicetype
  (Except.ok (), res.2)

/-- addBridge (src/ovs/ovs_bridge.go:195-217): create the bridge only if
no port with its name exists, then require the port to be observable.
The third component counts the insert transactions submitted.  The
nil-connection guard of the source is outside the model (the model is
always connected). -/
def addBridge (cache : DBState) (db : DBState) (bridgeName servicetype : String) :
    Except String Unit × DBState × Nat :=
  match portExists db bridgeName with
  | Except.error e => (Except.error e, db, 0)
  | Except.ok true => (Except.ok (), db, 0)
  | Except.ok false =>
      let cr := createBridgeIface cache db bridgeName servicetype
      match cr.1 with
      | Except.error e => (Except.error e, cr.2, 1)
      | Except.ok _ =>
          match portExists cr.2 bridgeName with
          | Except.error e => (Except.error e, cr.2, 1)
          | Except.ok true => (Except.ok (), cr.2, 1)
          | Except.ok false => (Except.error "Error creating Bridge", cr.2, 1)

/-- getBridgeServiceType (src/ovs/utils.go:278-307): select the BridgeOpt
row by name and read its service_type column.  The outer Option is none
when the source would panic on the service_type type assertion. -/
def getBridgeServiceType (db : DBState) (bridgenName : String) : Option (Except String String) :=
  let operations := [selOp "BridgeOpt" [⟨"name", Value.str bridgenName⟩]]
  let reply := (transact db operations).1
  if reply.length < operations.length then some (Except.error "Number of Replies should be at least equal to number of Operations")
  else
    match reply with
    | [] => some (Except.error "Number of Replies should be at least equal to number of Operations")
    | r0 :: _ =>
        if r0.error ≠ "" then some (Except.error ("Transaction Failed due to an error: " ++ r0.error))
        else
          match r0.rows with
          | [] => some (Except.error "no record with bridge name")
          | ret0 :: _ =>
              match List.lookup "service_type" ret0 with
              | some (Value.str s) => some (Except.ok s)
              | _ => none

/-- getNetworkidByBridgeName (src/ovs/utils.go:309-339): select the
BridgeOpt row by name and read its network_id column. -/
def getNetworkidByBridgeName (db : DBState) (bridgenName : String) : Option (Except String String) :=
  let operations := [selOp "BridgeOpt" [⟨"name", Value.str bridgenName⟩]]
  let reply := (transact db operations).1
  if reply.length < operations.length then some (Except.error "Number of Replies should be at least equal to number of Operations")
  else
    match reply with
    | [] => some (Except.error "Number of Replies should be at least equal to number of Operations")
    | r0 :: _ =>
        if r0.error ≠ "" then some (Except.error ("Transaction Failed due to an error: " ++ r0.error))
        else
          match r0.rows with
          | [] => some (Except.error "no record with networkid")
          | ret0 :: _ =>
              match List.lookup "network_id" ret0 with
              | some (Value.str s) => some (Except.ok s)
              | _ => none

/-- getBridgeUUIDForName (src/ovs/ovs_bridge.go:295-304): scan the cached
Bridge table for a row whose name column equals the given name and return
its identifier, otherwise the empty string. -/
def getBridgeUUIDForName (cache : DBState) (name : String) : String :=
  match (cache "Bridge").find? (fun p => List.lookup "name" p.2 == some (Value.str name)) with
  | some p => p.1
  | none => ""

/-- The three-operation delete transaction of deleteBridge
(src/ovs/ovs_bridge.go:228-263): delete Bridge and BridgeOpt rows by name
and remove the cached bridge identifier from the root row set. -/
def deleteBridgeOps (bridgeName bridgeUUID rootUUID : String) : List Operation :=
  let condition : Cond := ⟨"name", Value.str bridgeName⟩
  let deleteOp := delRowsOp "Bridge" [condition]
  let deleteOptOp := delRowsOp "BridgeOpt" [condition]
  let mutateOp := mutOp "Open_vSwitch" [⟨"bridges", Mutator.delete, [bridgeUUID]⟩]
    [⟨"_uuid", Value.uuid rootUUID⟩]
  [deleteOp, deleteOptOp, mutateOp]

/-- deleteBridge (src/ovs/ovs_bridge.go:220-293): read the service type
(failure only logged), resolve the cached bridge identifier (fail fast on
the empty string before any transaction), submit the delete transaction,
validate the replies, and stop the companion process best-effort for
gateway service types.  The Bool records whether the delete transaction
was submitted. -/
def deleteBridge (cache : DBState) (db : DBState) (bridgeName : String) :
    Option (Except TxnError Unit × DBState × Bool) :=
  match getBridgeServiceType db bridgeName with
  | none => none
  | some _ =>
      let bridgeUUID := getBridgeUUIDForName cache bridgeName
      if bridgeUUID = "" then
        some (Except.error ⟨"Unable to find a bridge uuid by name : [ " ++ bridgeName ++ " ]", none⟩, db, false)
      else
        let operations := deleteBridgeOps bridgeName bridgeUUID (getRootUUID cache)
        let tr := transact db operations
        match checkDeleteReply operations tr.1 with
        | Except.error e => some (Except.error e, tr.2, true)
        | Except.ok _ =>
            -- stopping the companion gateway process is best effort: any
            -- failure is logged and the source returns nil either way
            some (Except.ok (), tr.2, true)

/-! ### Reconciliation watcher -/

/-- One metadata re-creation performed by the watcher: bridge name,
service type and network id passed to the bridge re-insert. -/
abbrev RecreateCall := String × String × String

/-- The three-argument bridge re-insert invoked by monitorBridges
(src/ovs/utils.go:394).  Modelled from the spec: the BridgeOpt row also
carries the owning network identifier (spec, sections 3 and 4.4); the
three-argument variant of createOvsdbBridge is not among the provided
sources, so it extends the two-argument insert transaction of
src/ovs/ovs_bridge.go:111-192 with the network_id column. -/
def createOvsdbBridgeNet (cache : DBState) (db : DBState) (bridgeName servicetype networkid : String) :
    Except TxnError Unit × DBState :=
  let base := createBridgeOps cache bridgeName servicetype
  let operations := base.map (fun o =>
    if o.table = "BridgeOpt" then
      ⟨o.op, o.table, o.row ++ [("network_id", Value.str networkid)], o.uuidName, o.mutations, o.whereC⟩
    else o)
  let tr := transact db operations
  (checkCreateReply operations.length tr.1, tr.2)

/-- The re-creation body of monitorBridges (src/ovs/utils.go:383-394):
look up service type and network id in BridgeOpt, fall back to the
sentinel value on lookup failure, and re-insert the bridge metadata rows
(the result of the insert is discarded by the source). -/
def recreateOne (cache : DBState) (db : DBState) (name : String) : Option (DBState × RecreateCall) :=
  match getBridgeServiceType db name with
  | none => none
  | some est =>
      let servicetype := match est with | Except.ok s => s | Except.error _ => "none"
      match getNetworkidByBridgeName db name with
      | none => none
      | some enid =>
          let networkid := match enid with | Except.ok s => s | Except.error _ => "none"
          let cr := createOvsdbBridgeNet cache db name servicetype networkid
          some (cr.2, (name, servicetype, networkid))

/-- Per-row body of monitorBridges (src/ovs/utils.go:378-396): only a row
whose new image is non-empty and whose old image carries a string name
triggers a re-creation.  The outer Option is none when the source would
panic on the name type assertion. -/
def monitorBridgeRow (cache : DBState) (db : DBState) (calls : List RecreateCall) (ru : RowUpdate) :
    Option (DBState × List RecreateCall) :=
  if ru.new ≠ [] then
    match List.lookup "name" ru.old with
    | some (Value.str name) =>
        match recreateOne cache db name with
        | none => none
        | some dc => some (dc.1, calls ++ [dc.2])
    | some _ => none
    | none => some (db, calls)
  else some (db, calls)

/-- Inner row loop of monitorBridges over the rows of one Bridge-table
update. -/
def monitorRows (cache : DBState) : DBState → List RecreateCall → TableUpdate →
    Option (DBState × List RecreateCall)
  | db, calls, [] => some (db, calls)
  | db, calls, p :: rest =>
      match monitorBridgeRow cache db calls p.2 with
      | none => none
      | some dc => monitorRows cache dc.1 dc.2 rest

/-- Outer table loop of monitorBridges: only the Bridge table is
examined. -/
def monitorTables (cache : DBState) : DBState → List RecreateCall → TableUpdates →
    Option (DBState × List RecreateCall)
  | db, calls, [] => some (db, calls)
  | db, calls, q :: rest =>
      if q.1 = "Bridge" then
        match monitorRows cache db calls q.2 with
        | none => none
        | some dc => monitorTables cache dc.1 dc.2 rest
      else monitorTables cache db calls rest

/-- Processing of one update batch by monitorBridges
(src/ovs/utils.go:372-402).  The second component records every
re-creation performed, in order. -/
def monitorStep (cache : DBState) (db : DBState) (u : TableUpdates) : Option (DBState × List RecreateCall) :=
  monitorTables cache db [] u

/-! ### Network driver state machine

Driver-level constants and option parsing from src/ovs/utils.go:445-469
and 809-923, and the lifecycle calls CreateNetwork, DeleteNetwork, Join
and Leave.  The kernel interface table is a list of interface names with
their bound addresses (CIDR strings in kernel order). -/

def ovsPortPrefix : String := "ovs-veth0-"
def bridgePrefix : String := "ovsbr-"
def containerEthName : String := "eth"
def optionKey : String := "com.docker.network.generic"
def mtuOption : String := "linker.net.ovs.bridge.mtu"
def modeOption : String := "linker.net.ovs.bridge.mode"
def bridgeNameOption : String := "linker.net.ovs.bridge.name"
def bindInterfaceOption : String := "linker.net.ovs.bridge.bind_interface"
def typeOption : String := "linker.net.ovs.bridge.type"
def networkNameOption : String := "linker.net.ovs.network.name"
def modeNAT : String := "nat"
def modeFlat : String := "flat"
def type_sgw : String := "sgw"
def type_pgw : String := "pgw"
def defaultMTU : Int := 1500
def defaultMode : String := modeNAT

/-- ASCII lower casing of one character. -/
def lowerChar (c : Char) : Char :=
  if 'A' ≤ c ∧ c ≤ 'Z' then Char.ofNat (c.toNat + 32) else c

/-- strings.EqualFold restricted to ASCII case folding. -/
def eqFold (a b : String) : Bool :=
  a.data.map lowerChar == b.data.map lowerChar

/-- strings.Split on a one-character separator, on the character list. -/
def splitCharList (sep : Char) : List Char → List (List Char)
  | [] => [[]]
  | c :: cs =>
      match splitCharList sep cs with
      | [] => [[c]]
      | h :: t => if c = sep then [] :: h :: t else (c :: h) :: t

/-- strings.Split of a string on a one-character separator. -/
def splitOnChar (s : String) (sep : Char) : List String :=
  (splitCharList sep s.data).map List.asString

/-- A generic-option value (Go interface value inside request options). -/
inductive OptVal where
  | str (s : String)
  | int (n : Int)
  | boolv (b : Bool)
  | map (m : List (String × OptVal))

/-- dknet.IPAMData restricted to the field the driver reads. -/
structure IPAMData where
  gateway : String
deriving DecidableEq

/-- dknet.CreateNetworkRequest restricted to the fields the driver reads;
a nil IPAMData pointer in the data slices is Option.none. -/
structure CreateNetworkRequest where
  networkID : String
  options : List (String × OptVal)
  ipv4Data : List (Option IPAMData)
  ipv6Data : List (Option IPAMData)

/-- NetworkState (src/ovs/utils.go:488-497). -/
structure NetworkState where
  bridgeName : String
  mtu : Int
  mode : String
  gateway : String
  gatewayMask : String
  flatBindInterface : String
  networkType : String
  networkName : String
deriving DecidableEq

/-- The driver networks map: network identifier to NetworkState. -/
abbrev NetMap := List (String × NetworkState)

def nsSet (nets : NetMap) (id : String) (ns : NetworkState) : NetMap :=
  (id, ns) :: nets.filter (fun p => p.1 ≠ id)

def nsDel (nets : NetMap) (id : String) : NetMap :=
  nets.filter (fun p => p.1 ≠ id)

/-- truncateID (src/ovs/utils.go:809-811) slices id[:5] unconditionally;
on an identifier shorter than five bytes the Go slice panics, modelled as
none. -/
def truncateID (id : String) : Option String :=
  if 5 ≤ id.length then some (id.take 5) else none

/-- getBridgeName (src/ovs/utils.go:823-832): the default name is the
fixed prefix followed by the truncated network id, computed before the
top-level bridge-name option can override it. -/
def getBridgeName (r : CreateNetworkRequest) : Option String :=
  match truncateID r.networkID with
  | none => none
  | some t =>
      let bridgeName := bridgePrefix ++ t
      match List.lookup bridgeNameOption r.options with
      | some (OptVal.str name) => some name
      | _ => some bridgeName

/-- getBridgeMTU (src/ovs/utils.go:813-821). -/
def getBridgeMTU (r : CreateNetworkRequest) : Int :=
  match List.lookup mtuOption r.options with
  | some (OptVal.int mtu) => mtu
  | _ => defaultMTU

/-- getBridgeMode (src/ovs/utils.go:834-845): a supplied mode must be one
of nat or flat. -/
def getBridgeMode (r : CreateNetworkRequest) : Except String String :=
  match List.lookup modeOption r.options with
  | some (OptVal.str mode) =>
      if mode = modeNAT ∨ mode = modeFlat then Except.ok mode
      else Except.error (mode ++ " is not a valid mode")
  | _ => Except.ok defaultMode

/-- getGatewayIP (src/ovs/utils.go:847-882): the first IPv6 gateway is
overwritten by the first IPv4 gateway; splitting a non-empty gateway
without a slash panics on parts[1] (none). -/
def getGatewayIP (r : CreateNetworkRequest) : Option (Except String (String × String)) :=
  let g6 : String :=
    match r.ipv6Data.head? with
    | some (some d) => if d.gateway ≠ "" then d.gateway else ""
    | _ => ""
  let gatewayIP : String :=
    match r.ipv4Data.head? with
    | some (some d) => if d.gateway ≠ "" then d.gateway else g6
    | _ => g6
  if gatewayIP = "" then some (Except.error "No gateway IP found")
  else
    match splitOnChar gatewayIP '/' with
    | [] => none
    | p0 :: rest =>
        if p0 = "" then some (Except.error "Cannot split gateway IP address")
        else
          match rest with
          | [] => none
          | p1 :: _ =>
              if p1 = "" then some (Except.error "Cannot split gateway IP address")
              else some (Except.ok (p0, p1))

/-- getBindInterface (src/ovs/utils.go:884-895): nested under the generic
options key; a non-map value there fails the unchecked type assertion
(none). -/
def getBindInterface (r : CreateNetworkRequest) : Option String :=
  match List.lookup optionKey r.options with
  | none => some ""
  | some (OptVal.map option) =>
      match List.lookup bindInterfaceOption option with
      | some (OptVal.str s) => some s
      | _ => some ""
  | some _ => none

/-- getNetworkName (src/ovs/utils.go:897-909). -/
def getNetworkName (r : CreateNetworkRequest) : Option String :=
  match List.lookup optionKey r.options with
  | none => some ""
  | some (OptVal.map option) =>
      match List.lookup networkNameOption option with
      | some (OptVal.str s) => some s
      | _ => some ""
  | some _ => none

/-- getNetworkType (src/ovs/utils.go:911-923). -/
def getNetworkType (r : CreateNetworkRequest) : Option String :=
  match List.lookup optionKey r.options with
  | none => some ""
  | some (OptVal.map option) =>
      match List.lookup typeOption option with
      | some (OptVal.str s) => some s
      | _ => some ""
  | some _ => none

/-- checkExecutable (src/ovs/utils.go:577-594): only gateway network
types are checked; they need a network name and no already-running
companion process.  psOutput is the trimmed stdout of the process-count
command. -/
def checkExecutable (networkType networkName psOutput : String) : Except String Unit :=
  if ¬ (eqFold networkType type_sgw) ∧ ¬ (eqFold networkType type_pgw) then Except.ok ()
  else if networkName.length ≤ 0 then
    Except.error "options must specify network name for sgw or pgw type"
  else if psOutput = "0" then Except.ok ()
  else Except.error "current node already run sgw or pgw process"

/-- A gateway network type in the sense of the source guards: sgw or pgw
up to ASCII case folding. -/
def isGatewayType (t : String) : Bool :=
  eqFold t type_sgw || eqFold t type_pgw

/-! ### Kernel interface model -/

/-- Kernel view: interface name with its bound addresses as CIDR strings,
in kernel order. -/
abbrev KernelState := List (String × List String)

def containsIface (k : KernelState) (name : String) : Bool :=
  k.any (fun p => p.1 = name)

def ifaceAddrs (k : KernelState) (name : String) : Option (List String) :=
  List.lookup name k

/-- validateIface (src/ovs/utils.go:84-91). -/
def validateIface (k : KernelState) (name : String) : Bool :=
  containsIface k name

/-- An IPv4 CIDR string: textual IPv4 addresses carry no colon. -/
def isV4 (addr : String) : Bool := ¬ (addr.data.contains ':')

/-- getIfaceAddr (src/ovs/utils.go:25-41): the first IPv4 address of the
interface, failing when the interface is missing or has none. -/
def getIfaceAddr (k : KernelState) (name : String) : Except String String :=
  match ifaceAddrs k name with
  | none => Except.error "Link not found"
  | some addrs =>
      match addrs.filter isV4 with
      | [] => Except.error ("Interface " ++ name ++ " has no IP addresses")
      | a :: _ => Except.ok a

/-- setInterfaceIP (src/ovs/utils.go:44-66): a missing link is
process-fatal (none); address parsing and the add are modelled on the
success path, binding the address to the interface. -/
def setInterfaceIP (k : KernelState) (name rawIP : String) : Option KernelState :=
  if containsIface k name then
    some (k.map (fun p => if p.1 = name then (p.1, p.2 ++ [rawIP]) else p))
  else none

/-- interfaceUp (src/ovs/utils.go:800-807): on a missing link the source
dereferences the nil link in its log call, a panic (none); otherwise the
link is brought up (administrative state is not modelled). -/
def interfaceUp (k : KernelState) (name : String) : Option (Except String Unit) :=
  if containsIface k name then some (Except.ok ()) else none

/-- netlink.Veth restricted to the fields the driver sets. -/
structure Veth where
  name : String
  peerName : String
deriving DecidableEq

/-- vethPair (src/ovs/utils.go:792-797). -/
def vethPair (suffix : String) : Veth :=
  ⟨ovsPortPrefix ++ suffix, "ethc" ++ suffix⟩

/-- netlink.LinkAdd on a veth pair: both ends appear with no addresses;
it fails when either name already exists. -/
def linkAddVeth (k : KernelState) (v : Veth) : Except String KernelState :=
  if containsIface k v.name || containsIface k v.peerName then Except.error "file exists"
  else Except.ok ((v.name, []) :: (v.peerName, []) :: k)

/-- netlink.LinkDel on a veth pair removes both ends. -/
def linkDelVeth (k : KernelState) (v : Veth) : KernelState :=
  k.filter (fun p => p.1 ≠ v.name ∧ p.1 ≠ v.peerName)

/-- getIPByInterface (src/ovs/utils.go:744-765): the address part of the
first address bound to the interface, of whatever family. -/
def ipPart (cidr : String) : String := (cidr.data.takeWhile (fun c => c ≠ '/')).asString

def getIPByInterface (k : KernelState) (iname : String) : Except String String :=
  match ifaceAddrs k iname with
  | none => Except.error "get interfaces by name error"
  | some addrs =>
      match addrs with
      | [] => Except.error "get ip by interface name error"
      | a :: _ => Except.ok (ipPart a)

/-- Modelled from the spec: addOvsVethPort attaches the veth as a port of
the bridge (spec, section 4.5 Join); the function body lives in a source
file not provided (ovs_port.go), so the success path records a Port row
named after the veth. -/
def addOvsVethPort (db : DBState) (_bridgeName portName : String) : Except String Unit × DBState :=
  (Except.ok (),
    fun t => if t = "Port" then rowSet (db t) portName [("name", Value.str portName)] else db t)

/-- Modelled from the spec: deletePort removes the corresponding port
from the bridge (spec, section 4.5 Leave); the function body lives in a
source file not provided (ovs_port.go), so the success path deletes the
Port rows carrying that name. -/
def deletePort (db : DBState) (_bridgeName portName : String) : Except String Unit × DBState :=
  (Except.ok (),
    fun t => if t = "Port" then (db t).filter (fun p => List.lookup "name" p.2 ≠ some (Value.str portName)) else db t)

/-! ### Lifecycle calls -/

/-- initBridge (src/ovs/ovs_bridge.go:16-80): create the bridge in the
database, require the kernel link, configure NAT mode, bring the link
up and launch the gateway script.  A missing NetworkState entry is a nil
dereference (none); the fixed-count link polls collapse since the kernel
state does not change in between; getIfaceAddr failure is a
process-fatal log.Fatalf (none); natOut and runOvsScript are external
calls modelled on the success path. -/
def initBridge (cache : DBState) (db : DBState) (k : KernelState) (networks : NetMap) (id : String) :
    Option (Except String Unit × DBState × KernelState) :=
  match List.lookup id networks with
  | none => none
  | some ns =>
      let ab := addBridge cache db ns.bridgeName ns.networkType
      match ab.1 with
      | Except.error e => some (Except.error e, ab.2.1, k)
      | Except.ok _ =>
          if validateIface k ns.bridgeName = false then
            some (Except.error ("Could not find a link for the OVS bridge named " ++ ns.bridgeName), ab.2.1, k)
          else
            let natStep : Option KernelState :=
              if ns.mode = modeNAT then
                match setInterfaceIP k ns.bridgeName (ns.gateway ++ "/" ++ ns.gatewayMask) with
                | none => none
                | some k1 =>
                    match getIfaceAddr k1 ns.bridgeName with
                    | Except.error _ => none
                    | Except.ok _ => some k1
              else some k
            match natStep with
            | none => none
            | some k1 =>
                match interfaceUp k1 ns.bridgeName with
                | none => none
                | some (Except.error e) => some (Except.error e, ab.2.1, k1)
                | some (Except.ok _) => some (Except.ok (), ab.2.1, k1)

/-- CreateNetwork (src/ovs/utils.go:512-575): parse and validate the
options, run the gateway-type precondition, store NetworkState, then
initialize the bridge, rolling the entry back when initialization
fails.  psOutput feeds checkExecutable.  none models a panic or a
process-fatal exit on the way. -/
def CreateNetwork (cache : DBState) (db : DBState) (k : KernelState) (networks : NetMap)
    (r : CreateNetworkRequest) (psOutput : String) :
    Option (Except String Unit × NetMap × DBState × KernelState) :=
  match getBridgeName r with
  | none => none
  | some bridgeName =>
      let mtu := getBridgeMTU r
      match getBridgeMode r with
      | Except.error e => some (Except.error e, networks, db, k)
      | Except.ok mode =>
          match getGatewayIP r with
          | none => none
          | some (Except.error e) => some (Except.error e, networks, db, k)
          | some (Except.ok gm) =>
              match getBindInterface r with
              | none => none
              | some bindInterface =>
                  match getNetworkName r with
                  | none => none
                  | some networkName =>
                      match getNetworkType r with
                      | none => none
                      | some networktype =>
                          match checkExecutable networktype networkName psOutput with
                          | Except.error e => some (Except.error e, networks, db, k)
                          | Except.ok _ =>
                              let ns : NetworkState :=
                                ⟨bridgeName, mtu, mode, gm.1, gm.2, bindInterface, networktype, networkName⟩
                              let networks1 := nsSet networks r.networkID ns
                              match initBridge cache db k networks1 r.networkID with
                              | none => none
                              | some (Except.error e, db1, k1) =>
                                  some (Except.error e, nsDel networks1 r.networkID, db1, k1)
                              | some (Except.ok _, db1, k1) =>
                                  some (Except.ok (), networks1, db1, k1)

/-- DeleteNetwork (src/ovs/utils.go:607-619): recompute the bridge name
from the network id, delete the bridge, and drop the NetworkState entry
only after a successful deletion. -/
def DeleteNetwork (cache : DBState) (db : DBState) (networks : NetMap) (networkID : String) :
    Option (Except TxnError Unit × NetMap × DBState) :=
  match truncateID networkID with
  | none => none
  | some t =>
      let bridgeName := bridgePrefix ++ t
      match deleteBridge cache db bridgeName with
      | none => none
      | some (Except.error e, db1, _) => some (Except.error e, networks, db1)
      | some (Except.ok _, db1, _) => some (Except.ok (), nsDel networks networkID, db1)

/-- dknet.JoinResponse restricted to the fields the driver sets. -/
structure JoinResponse where
  srcName : String
  dstPrefix : String
  gateway : String
deriving DecidableEq

/-- Join (src/ovs/utils.go:648-687): create the veth pair from the
truncated endpoint id, bring it up, attach it to the bridge named from
the truncated network id, and answer with the peer name and the address
read live from the bridge interface.  The Go receiver carries the
networks map; the body never consults it, which the unused argument
records. -/
def Join (db : DBState) (k : KernelState) (_networks : NetMap) (networkID endpointID : String) :
    Option (Except String (Veth × JoinResponse) × KernelState × DBState) :=
  match truncateID endpointID with
  | none => none
  | some suffix =>
      let localVethPair := vethPair suffix
      match linkAddVeth k localVethPair with
      | Except.error e => some (Except.error e, k, db)
      | Except.ok k1 =>
          -- netlink.LinkSetUp on the fresh pair: success path
          match truncateID networkID with
          | none => none
          | some nt =>
              let bridgeName := bridgePrefix ++ nt
              let ap := addOvsVethPort db bridgeName localVethPair.name
              match ap.1 with
              | Except.error e => some (Except.error e, k1, ap.2)
              | Except.ok _ =>
                  match getIPByInterface k1 bridgeName with
                  | Except.error e => some (Except.error e, k1, ap.2)
                  | Except.ok gatewayIP =>
                      some (Except.ok (localVethPair, ⟨localVethPair.peerName, containerEthName, gatewayIP⟩), k1, ap.2)

/-- Leave (src/ovs/utils.go:689-706): delete the veth pair (failure only
logged) and delete the bridge port (failure fatal). -/
def Leave (db : DBState) (k : KernelState) (_networks : NetMap) (networkID endpointID : String) :
    Option (Except String Unit × KernelState × DBState) :=
  match truncateID endpointID with
  | none => none
  | some suffix =>
      let localVethPair := vethPair suffix
      let k1 := linkDelVeth k localVethPair
      let portID := ovsPortPrefix ++ suffix
      match truncateID networkID with
      | none => none
      | some nt =>
          let bridgeName := bridgePrefix ++ nt
          let dp := deletePort db bridgeName portID
          match dp.1 with
          | Except.error e => some (Except.error e, k1, dp.2)
          | Except.ok _ => some (Except.ok (), k1, dp.2)

/-! ### Observables used by the theorems -/

def exceptOk {ε α : Type} : Except ε α → Bool
  | Except.ok _ => true
  | Except.error _ => false

/-- The successful payload of a Join result. -/
def joinOut (r : Option (Except String (Veth × JoinResponse) × KernelState × DBState)) :
    Option (Veth × JoinResponse) :=
  match r with
  | some (Except.ok p, _, _) => some p
  | _ => none

/-- The kernel state carried by a Join result. -/
def joinKernel (r : Option (Except String (Veth × JoinResponse) × KernelState × DBState)) :
    Option KernelState :=
  match r with
  | some (_, k, _) => some k
  | none => none

/-- The gateway handed back by a successful Join. -/
def joinGateway (r : Option (Except String (Veth × JoinResponse) × KernelState × DBState)) :
    Option String :=
  match joinOut r with
  | some p => some p.2.gateway
  | none => none

/-- A CreateNetwork outcome that rejects the request with an error while
leaving the networks map, the database and the kernel untouched. -/
def isRejectedUnchanged (res : Option (Except String Unit × NetMap × DBState × KernelState))
    (networks : NetMap) (db : DBState) (k : KernelState) : Prop :=
  match res with
  | some (Except.error _, n1, d1, k1) => n1 = networks ∧ d1 = db ∧ k1 = k
  | _ => False

/-- Removal of one bridge identifier from the bridges set of a row:
the set column keeps every other element. -/
def rowRemoveBridges (r : Row) (u : String) : Row :=
  match List.lookup "bridges" r with
  | some (Value.uuidSet s) =>
      r.map (fun p => if p.1 = "bridges" then (p.1, Value.uuidSet (s.filter (fun v => v ≠ u))) else p)
  | _ => r

/-! ### Concrete fixtures used by counterexamples and witnesses -/

def exNetState : NetworkState := ⟨"ovsbr-28174", 1500, "nat", "10.0.0.1", "24", "", "", ""⟩

/-- A cache knowing bridge ovsbr-28174 under uuid u7 and the root row. -/
def exCacheBr : DBState := fun t =>
  if t = "Bridge" then [("u7", [("name", Value.str "ovsbr-28174")])]
  else if t = "Open_vSwitch" then [("root0", [("bridges", Value.uuidSet ["u7", "u8"])])]
  else []

/-- A remote database holding two bridges and their metadata. -/
def exDb : DBState := fun t =>
  if t = "Bridge" then [("u7", [("name", Value.str "ovsbr-28174")]), ("u8", [("name", Value.str "br1")])]
  else if t = "BridgeOpt" then [("x1", [("name", Value.str "ovsbr-28174"), ("service_type", Value.str "sgw")])]
  else if t = "Open_vSwitch" then [("root0", [("bridges", Value.uuidSet ["u7", "u8"])])]
  else []

/-- A database whose Port table already holds a port named br0. -/
def exPortDb : DBState := fun t =>
  if t = "Port" then [("p0", [("name", Value.str "br0")])] else []

/-- A kernel state where the bridge carries an IPv6 address before its
IPv4 one. -/
def exKernel : KernelState := [("ovsbr-28174", ["fe80::1/64", "10.0.0.1/24"])]

/-- A gateway-type create request carrying no network name. -/
def exGwRequest : CreateNetworkRequest :=
  ⟨"281746a33da5c97b", [(optionKey, OptVal.map [(typeOption, OptVal.str "sgw")])],
    [some ⟨"10.0.0.1/24"⟩], []⟩

/-! ## Theorems

Helper lemmas about association lists and override folds, then one
theorem per claim (with its counterexample and witness where needed). -/

theorem lookup_filter_key_self {β : Type} (l : List (String × β)) (u : String) :
    List.lookup u (l.filter (fun p => p.1 ≠ u)) = none := by
  induction l with
  | nil => rfl
  | cons p l ih =>
      obtain ⟨k, v⟩ := p
      by_cases hp : k = u
      · rw [List.filter_cons, if_neg (by simp [hp])]
        exact ih
      · rw [List.filter_cons, if_pos (by simp [hp]), List.lookup_cons]
        have hne : (u == k) = false := beq_eq_false_iff_ne.mpr (Ne.symm hp)
        rw [hne]
        exact ih

theorem lookup_filter_key_ne {β : Type} (l : List (String × β)) (a u : String) (h : a ≠ u) :
    List.lookup a (l.filter (fun p => p.1 ≠ u)) = List.lookup a l := by
  induction l with
  | nil => rfl
  | cons p l ih =>
      obtain ⟨k, v⟩ := p
      by_cases hp : k = u
      · rw [List.filter_cons, if_neg (by simp [hp]), ih, List.lookup_cons]
        have hne : (a == k) = false := beq_eq_false_iff_ne.mpr (hp ▸ h)
        rw [hne]
      · rw [List.filter_cons, if_pos (by simp [hp]), List.lookup_cons, List.lookup_cons]
        cases hak : a == k
        · rw [ih]
        · rfl

/-- Claim C6: with network id 281746a33da5c97b and no override option the
derived bridge name is ovsbr-28174 (prefix plus the first five
characters); a bridge-name option present in the request options is
returned instead. -/
theorem claim_C6 :
    getBridgeName ⟨"281746a33da5c97b", [], [], []⟩ = some "ovsbr-28174"
    ∧ ∀ (opts : List (String × OptVal)) (n : String),
        List.lookup bridgeNameOption opts = some (OptVal.str n) →
        getBridgeName ⟨"281746a33da5c97b", opts, [], []⟩ = some n := by
  refine ⟨rfl, ?_⟩
  intro opts n h
  have ht : truncateID "281746a33da5c97b" = some "28174" := rfl
  simp only [getBridgeName, ht, h]

theorem claim_C6_witness :
    getBridgeName ⟨"281746a33da5c97b", [(bridgeNameOption, OptVal.str "mybr")], [], []⟩ = some "mybr" :=
  claim_C6.2 [(bridgeNameOption, OptVal.str "mybr")] "mybr" rfl

/-- Claim C10: every lifecycle call that truncates an identifier (the
network id in CreateNetwork, DeleteNetwork, Join and Leave, and the
endpoint id in Join and Leave) panics, rather than returning an error,
when that identifier is shorter than five characters, because truncateID
slices unconditionally. -/
theorem claim_C10 : ∀ (id : String), id.length < 5 →
    truncateID id = none
    ∧ (∀ cache db k networks (r : CreateNetworkRequest) psOutput, r.networkID = id →
        CreateNetwork cache db k networks r psOutput = none)
    ∧ (∀ cache db networks, DeleteNetwork cache db networks id = none)
    ∧ (∀ db k networks nw, Join db k networks nw id = none)
    ∧ (∀ db k networks ep, 5 ≤ ep.length →
        containsIface k (ovsPortPrefix ++ ep.take 5) = false →
        containsIface k ("ethc" ++ ep.take 5) = false →
        Join db k networks id ep = none)
    ∧ (∀ db k networks nw, Leave db k networks nw id = none)
    ∧ (∀ db k networks ep, 5 ≤ ep.length → Leave db k networks id ep = none) := by
  intro id h
  have ht : truncateID id = none := by
    unfold truncateID
    rw [if_neg (by omega)]
  refine ⟨ht, ?_, ?_, ?_, ?_, ?_, ?_⟩
  · intro cache db k networks r psOutput hr
    simp only [CreateNetwork, getBridgeName, hr, ht]
  · intro cache db networks
    simp only [DeleteNetwork, ht]
  · intro db k networks nw
    simp only [Join, ht]
  · intro db k networks ep hep hc1 hc2
    have htep : truncateID ep = some (ep.take 5) := by
      unfold truncateID
      rw [if_pos hep]
    simp only [Join, htep, linkAddVeth, vethPair, hc1, hc2, Bool.or_self, Bool.false_eq_true,
      if_neg, ht]
    simp
  · intro db k networks nw
    simp only [Leave, ht]
  · intro db k networks ep hep
    have htep : truncateID ep = some (ep.take 5) := by
      unfold truncateID
      rw [if_pos hep]
    simp only [Leave, htep, ht]

theorem claim_C10_witness :
    truncateID "abc" = none
    ∧ CreateNetwork emptyDB emptyDB [] [] ⟨"abc", [], [], []⟩ "0" = none
    ∧ DeleteNetwork emptyDB emptyDB [] "abc" = none
    ∧ Join emptyDB [] [] "somenetwork" "abc" = none
    ∧ Join emptyDB [] [] "abc" "9f8a2abcdef" = none
    ∧ Leave emptyDB [] [] "somenetwork" "abc" = none
    ∧ Leave emptyDB [] [] "abc" "9f8a2abcdef" = none := by
  obtain ⟨h1, h2, h3, h4, h5, h6, h7⟩ := claim_C10 "abc" (by decide)
  exact ⟨h1, h2 emptyDB emptyDB [] [] ⟨"abc", [], [], []⟩ "0" rfl, h3 emptyDB emptyDB [],
    h4 emptyDB [] [] "somenetwork", h5 emptyDB [] [] "9f8a2abcdef" (by decide) rfl rfl,
    h6 emptyDB [] [] "somenetwork", h7 emptyDB [] [] "9f8a2abcdef" (by decide)⟩

/-- Claim C4: bridge creation is idempotent.  When a port with the bridge
name already exists addBridge submits no insert transaction and succeeds;
and after any successful addBridge call, a second call for the same name
submits no insert transaction, succeeds, and the two calls together
submit at most one insert transaction. -/
theorem claim_C4 :
    (∀ cache db name st, portExists db name = Except.ok true →
        addBridge cache db name st = (Except.ok (), db, 0))
    ∧ ∀ cache db name st db1 k1,
        addBridge cache db name st = (Except.ok (), db1, k1) →
        addBridge cache db1 name st = (Except.ok (), db1, 0) ∧ k1 ≤ 1 := by
  constructor
  · intro cache db name st h
    unfold addBridge
    rw [h]
  · intro cache db name st db1 k1 h
    unfold addBridge at h
    cases hpe : portExists db name with
    | error e =>
        rw [hpe] at h
        exact absurd h (by simp)
    | ok b =>
        rw [hpe] at h
        cases b with
        | true =>
            simp only [Prod.mk.injEq] at h
            obtain ⟨-, hdb, hk⟩ := h
            subst hdb
            constructor
            · unfold addBridge
              rw [hpe]
            · omega
        | false =>
            simp only [createBridgeIface] at h
            cases hpe2 : portExists (createOvsdbBridge cache db name st).2 name with
            | error e =>
                rw [hpe2] at h
                exact absurd h (by simp)
            | ok b2 =>
                rw [hpe2] at h
                cases b2 with
                | true =>
                    simp only [Prod.mk.injEq] at h
                    obtain ⟨-, hdb, hk⟩ := h
                    subst hdb
                    constructor
                    · unfold addBridge
                      rw [hpe2]
                    · omega
                | false => exact absurd h (by simp)

theorem claim_C4_witness :
    addBridge emptyDB exPortDb "br0" "" = (Except.ok (), exPortDb, 0) ∧ 0 ≤ 1 :=
  claim_C4.2 emptyDB exPortDb "br0" "" exPortDb 0 rfl

/-- Claim C8 fails on the code: when the bridge deletion fails,
DeleteNetwork returns before deleting the NetworkState entry, so the
entry is still present afterwards.  Here the cache knows no bridge, the
deletion fails fast, and the networks map still holds the id. -/
theorem claim_C8_counterexample :
    (DeleteNetwork emptyDB emptyDB [("281746a33da5c97b", exNetState)] "281746a33da5c97b").map
      (fun res => (exceptOk res.1, (List.lookup "281746a33da5c97b" res.2.1).isSome))
      = some (false, true) := rfl

/-- Claim C8 amended: after DeleteNetwork returns, the NetworkState entry
for the network id is gone when the bridge deletion succeeded, and the
networks map is untouched when it failed. -/
theorem claim_C8_amended : ∀ cache db networks networkID res,
    DeleteNetwork cache db networks networkID = some res →
    (exceptOk res.1 = true → List.lookup networkID res.2.1 = none)
    ∧ (exceptOk res.1 = false → res.2.1 = networks) := by
  intro cache db networks networkID res h
  unfold DeleteNetwork at h
  cases ht : truncateID networkID with
  | none => rw [ht] at h; exact absurd h (by simp)
  | some t =>
      simp only [ht] at h
      cases hd : deleteBridge cache db (bridgePrefix ++ t) with
      | none => rw [hd] at h; exact absurd h (by simp)
      | some r =>
          rw [hd] at h
          obtain ⟨rr, rdb, rb⟩ := r
          cases rr with
          | error e =>
              simp only [Option.some.injEq] at h
              subst h
              exact ⟨fun hfalse => by simp [exceptOk] at hfalse, fun _ => rfl⟩
          | ok u =>
              simp only [Option.some.injEq] at h
              subst h
              refine ⟨fun _ => ?_, fun hfalse => by simp [exceptOk] at hfalse⟩
              exact lookup_filter_key_self networks networkID

theorem claim_C8_witness :
    (DeleteNetwork exCacheBr exDb [("281746a33da5c97b", exNetState)] "281746a33da5c97b").map
      (fun res => List.lookup "281746a33da5c97b" res.2.1) = some none := by
  have h := (claim_C8_amended exCacheBr exDb [("281746a33da5c97b", exNetState)] "281746a33da5c97b" _ rfl).1 rfl
  exact congrArg some h

theorem firstBadReply_eq_none_iff (r : List Reply) :
    firstBadReply r = none ↔ ∀ o ∈ r, o.error = "" := by
  induction r with
  | nil => simp [firstBadReply]
  | cons a rest ih =>
      by_cases ha : a.error = ""
      · rw [firstBadReply, if_neg (by simp [ha])]
        simp [ih, ha]
      · rw [firstBadReply, if_pos ha]
        simp [ha]

theorem firstBadReply_eq_some : ∀ (r : List Reply) (o : Reply), firstBadReply r = some o →
    ∃ pre post, r = pre ++ o :: post ∧ (∀ x ∈ pre, x.error = "") ∧ o.error ≠ "" := by
  intro r
  induction r with
  | nil => intro o h; exact absurd h (by simp [firstBadReply])
  | cons a rest ih =>
      intro o h
      rw [firstBadReply] at h
      by_cases ha : a.error = ""
      · rw [if_neg (by simp [ha])] at h
        obtain ⟨pre, post, hsplit, hpre, hbad⟩ := ih o h
        refine ⟨a :: pre, post, by simp [hsplit], ?_, hbad⟩
        intro x hx
        rcases List.mem_cons.mp hx with hx | hx
        · rw [hx]; exact ha
        · exact hpre x hx
      · rw [if_pos ha] at h
        obtain rfl : a = o := Option.some.inj h
        exact ⟨[], rest, rfl, by simp, ha⟩

theorem checkDeleteReplyAux_ok_iff (ops : List Operation) :
    ∀ (r : List Reply) (i : Nat),
      checkDeleteReplyAux ops i r = Except.ok () ↔ ∀ o ∈ r, o.error = "" := by
  intro r
  induction r with
  | nil => intro i; simp [checkDeleteReplyAux]
  | cons a rest ih =>
      intro i
      rw [checkDeleteReplyAux]
      by_cases ha : a.error = ""
      · rw [if_neg (by simp [ha])]
        simp [ih (i + 1), ha]
      · rw [if_pos ha]
        by_cases hi : i < ops.length <;> simp [hi, ha]

theorem checkDeleteReplyAux_error (ops : List Operation) :
    ∀ (r : List Reply) (i : Nat) (e : TxnError), checkDeleteReplyAux ops i r = Except.error e →
    ∃ pre o post, r = pre ++ o :: post ∧ (∀ x ∈ pre, x.error = "") ∧ o.error ≠ "" ∧
      ((i + pre.length < ops.length ∧
          e = ⟨"Transaction Failed due to an error: " ++ o.error ++ " in operation",
               ops.get? (i + pre.length)⟩)
        ∨ (¬ i + pre.length < ops.length ∧
          e = ⟨"Transaction Failed due to an error : " ++ o.error, none⟩)) := by
  intro r
  induction r with
  | nil => intro i e h; exact absurd h (by simp [checkDeleteReplyAux])
  | cons a rest ih =>
      intro i e h
      rw [checkDeleteReplyAux] at h
      by_cases ha : a.error = ""
      · rw [if_neg (by simp [ha])] at h
        obtain ⟨pre, o, post, hsplit, hpre, hbad, hcase⟩ := ih (i + 1) e h
        have hlen : i + (a :: pre).length = i + 1 + pre.length := by
          simp only [List.length_cons]
          omega
        refine ⟨a :: pre, o, post, by simp [hsplit], ?_, hbad, ?_⟩
        · intro x hx
          rcases List.mem_cons.mp hx with hx | hx
          · rw [hx]; exact ha
          · exact hpre x hx
        · rw [hlen]
          exact hcase
      · rw [if_pos ha] at h
        by_cases hi : i < ops.length
        · rw [if_pos hi] at h
          refine ⟨[], a, rest, rfl, by simp, ha, Or.inl ⟨by simpa using hi, ?_⟩⟩
          simpa using (Except.error.inj h).symm
        · rw [if_neg hi] at h
          refine ⟨[], a, rest, rfl, by simp, ha, Or.inr ⟨by simpa using hi, ?_⟩⟩
          simpa using (Except.error.inj h).symm

/-- Claim C3 fails on the code for the delete path: deleteBridge only
logs a reply count below the operation count and then accepts, as here
with an empty reply list against the three delete operations. -/
theorem claim_C3_counterexample :
    checkDeleteReply (deleteBridgeOps "br0" "u7" "root0") [] = Except.ok ()
    ∧ List.length ([] : List Reply) < (deleteBridgeOps "br0" "u7" "root0").length := by
  exact ⟨rfl, by decide⟩

/-- Claim C3 amended: the bridge-create validation accepts exactly when
the reply count reaches the operation count and no reply carries an
error; the bridge-delete validation accepts exactly when no reply
carries an error (a short reply count is only logged).  On failure the
message of the first erroring reply is recoverable, and the delete path
also embeds the offending operation when the reply index falls inside
the operation list. -/
theorem claim_C3_amended :
    (∀ (nops : Nat) (r : List Reply),
        checkCreateReply nops r = Except.ok () ↔ nops ≤ r.length ∧ ∀ o ∈ r, o.error = "")
    ∧ (∀ (ops : List Operation) (r : List Reply),
        checkDeleteReply ops r = Except.ok () ↔ ∀ o ∈ r, o.error = "")
    ∧ (∀ (ops : List Operation) (r : List Reply) (e : TxnError),
        checkDeleteReply ops r = Except.error e →
        ∃ pre o post, r = pre ++ o :: post ∧ (∀ x ∈ pre, x.error = "") ∧ o.error ≠ "" ∧
          ((pre.length < ops.length ∧
              e = ⟨"Transaction Failed due to an error: " ++ o.error ++ " in operation",
                   ops.get? pre.length⟩)
            ∨ (¬ pre.length < ops.length ∧
              e = ⟨"Transaction Failed due to an error : " ++ o.error, none⟩)))
    ∧ (∀ (nops : Nat) (r : List Reply) (e : TxnError),
        checkCreateReply nops r = Except.error e → ¬ r.length < nops →
        ∃ pre o post, r = pre ++ o :: post ∧ (∀ x ∈ pre, x.error = "") ∧ o.error ≠ "" ∧
          e = ⟨"Transaction Failed due to an error :" ++ o.error ++ " details : " ++ o.details,
               none⟩) := by
  refine ⟨?_, ?_, ?_, ?_⟩
  · intro nops r
    unfold checkCreateReply
    by_cases hlen : r.length < nops
    · rw [if_pos hlen]
      constructor
      · intro h; exact absurd h (by simp)
      · intro h; omega
    · rw [if_neg hlen]
      cases hfb : firstBadReply r with
      | none =>
          simp only []
          constructor
          · intro _; exact ⟨by omega, (firstBadReply_eq_none_iff r).mp hfb⟩
          · intro _; trivial
      | some o =>
          simp only []
          constructor
          · intro h; exact absurd h (by simp)
          · intro h
            obtain ⟨pre, post, hsplit, hpre, hbad⟩ := firstBadReply_eq_some r o hfb
            exact absurd (h.2 o (by simp [hsplit])) hbad
  · intro ops r
    exact checkDeleteReplyAux_ok_iff ops r 0
  · intro ops r e h
    obtain ⟨pre, o, post, hsplit, hpre, hbad, hcase⟩ := checkDeleteReplyAux_error ops r 0 e h
    refine ⟨pre, o, post, hsplit, hpre, hbad, ?_⟩
    simpa using hcase
  · intro nops r e h hlen
    unfold checkCreateReply at h
    rw [if_neg hlen] at h
    cases hfb : firstBadReply r with
    | none => rw [hfb] at h; exact absurd h (by simp)
    | some o =>
        rw [hfb] at h
        obtain ⟨pre, post, hsplit, hpre, hbad⟩ := firstBadReply_eq_some r o hfb
        exact ⟨pre, o, post, hsplit, hpre, hbad, (Except.error.inj h).symm⟩

theorem claim_C3_witness :
    checkCreateReply 1 [okReply] = Except.ok () ∧ checkDeleteReply [] [okReply] = Except.ok () :=
  ⟨(claim_C3_amended.1 1 [okReply]).mpr ⟨by decide, by decide⟩,
   (claim_C3_amended.2.1 [] [okReply]).mpr (by decide)⟩

/-- Claim C7 fails on the code in its gateway clause: getIPByInterface
takes the first address of the bridge interface with no IPv4 family
filter, so with an IPv6 address listed first the returned gateway is the
IPv6 address, although the live IPv4 address bound to the bridge is
10.0.0.1 (from 10.0.0.1/24). -/
theorem claim_C7_counterexample :
    joinGateway (Join emptyDB exKernel [] "281746a33da5c97b" "9f8a2abcdef") = some "fe80::1"
    ∧ ifaceAddrs exKernel "ovsbr-28174" = some ["fe80::1/64", "10.0.0.1/24"]
    ∧ isV4 "fe80::1/64" = false ∧ isV4 "10.0.0.1/24" = true ∧ ipPart "10.0.0.1/24" = "10.0.0.1"
    ∧ ("fe80::1" : String) ≠ "10.0.0.1" :=
  ⟨rfl, rfl, rfl, rfl, rfl, by decide⟩

/-- Claim C7 amended: a join whose endpoint id begins with 9f8a2 creates
the veth pair ovs-veth0-9f8a2 (host side) and ethc9f8a2 (peer side,
returned as the container-side source name), and the gateway in the
response is read live from the bridge interface in the kernel state at
response time — the address part of the first bound address, of
whatever family — while the NetworkState map is never consulted. -/
theorem claim_C7_amended :
    (∀ db k networks networkID endpointID nt v resp k1,
        truncateID endpointID = some "9f8a2" →
        truncateID networkID = some nt →
        joinOut (Join db k networks networkID endpointID) = some (v, resp) →
        joinKernel (Join db k networks networkID endpointID) = some k1 →
        v.name = "ovs-veth0-9f8a2" ∧ v.peerName = "ethc9f8a2" ∧
        resp.srcName = "ethc9f8a2" ∧ resp.dstPrefix = containerEthName ∧
        getIPByInterface k1 (bridgePrefix ++ nt) = Except.ok resp.gateway)
    ∧ ∀ db k networks networks' networkID endpointID,
        Join db k networks networkID endpointID = Join db k networks' networkID endpointID := by
  constructor
  · intro db k networks networkID endpointID nt v resp k1 hep hnw hout hker
    unfold Join at hout hker
    cases hla : linkAddVeth k (vethPair "9f8a2") with
    | error e =>
        simp only [joinOut, hep, hnw, hla] at hout
        exact absurd hout (by simp)
    | ok k2 =>
        simp only [joinOut, joinKernel, hep, hnw, hla, addOvsVethPort] at hout hker
        cases hip : getIPByInterface k2 (bridgePrefix ++ nt) with
        | error e =>
            simp only [hip] at hout
            exact absurd hout (by simp)
        | ok g =>
            simp only [hip, Option.some.injEq, Prod.mk.injEq] at hout hker
            obtain ⟨hv, hresp⟩ := hout
            subst hv
            subst hresp
            subst hker
            exact ⟨rfl, rfl, rfl, rfl, hip⟩
  · intro db k networks networks' networkID endpointID
    rfl

theorem claim_C7_witness :
    (Veth.mk "ovs-veth0-9f8a2" "ethc9f8a2").name = "ovs-veth0-9f8a2"
    ∧ (Veth.mk "ovs-veth0-9f8a2" "ethc9f8a2").peerName = "ethc9f8a2"
    ∧ (JoinResponse.mk "ethc9f8a2" "eth" "fe80::1").srcName = "ethc9f8a2"
    ∧ (JoinResponse.mk "ethc9f8a2" "eth" "fe80::1").dstPrefix = containerEthName
    ∧ getIPByInterface (("ovs-veth0-9f8a2", []) :: ("ethc9f8a2", []) :: exKernel)
        (bridgePrefix ++ "28174") = Except.ok "fe80::1" :=
  claim_C7_amended.1 emptyDB exKernel [] "281746a33da5c97b" "9f8a2abcdef" "28174"
    (Veth.mk "ovs-veth0-9f8a2" "ethc9f8a2") (JoinResponse.mk "ethc9f8a2" "eth" "fe80::1")
    (("ovs-veth0-9f8a2", []) :: ("ethc9f8a2", []) :: exKernel) rfl rfl rfl rfl

theorem applyMutation_del_bridges (r : Row) (u : String) :
    applyMutation ⟨"bridges", Mutator.delete, [u]⟩ r = rowRemoveBridges r u := by
  unfold applyMutation rowRemoveBridges
  cases hlk : List.lookup "bridges" r with
  | none => rfl
  | some v =>
      cases v with
      | uuidSet s =>
          simp only []
          apply List.map_congr_left
          intro p _
          by_cases hp : p.1 = "bridges"
          · rw [if_pos hp, if_pos hp]
            have : s.filter (fun v => ¬ v ∈ [u]) = s.filter (fun v => v ≠ u) := by
              apply List.filter_congr
              intro x _
              simp
            rw [this]
          · rw [if_neg hp, if_neg hp]
      | str s => rfl
      | bool b => rfl
      | uuid x => rfl
      | int n => rfl

theorem deleteTxn_Bridge (db : DBState) (bn u r0 : String) :
    (transact db (deleteBridgeOps bn u r0)).2 "Bridge"
      = (db "Bridge").filter (fun p => ¬ List.lookup "name" p.2 = some (Value.str bn)) := by
  simp only [transact, deleteBridgeOps, delRowsOp, mutOp, runOp, List.foldl_cons, List.foldl_nil]
  rw [if_neg (by decide : ¬ ("Bridge" : String) = "Open_vSwitch"),
      if_neg (by decide : ¬ ("Bridge" : String) = "BridgeOpt"), if_pos trivial]
  apply List.filter_congr
  intro p _
  simp [matchConds, matchCond]

theorem deleteTxn_BridgeOpt (db : DBState) (bn u r0 : String) :
    (transact db (deleteBridgeOps bn u r0)).2 "BridgeOpt"
      = (db "BridgeOpt").filter (fun p => ¬ List.lookup "name" p.2 = some (Value.str bn)) := by
  simp only [transact, deleteBridgeOps, delRowsOp, mutOp, runOp, List.foldl_cons, List.foldl_nil]
  rw [if_neg (by decide : ¬ ("BridgeOpt" : String) = "Open_vSwitch"),
      if_pos trivial, if_neg (by decide : ¬ ("BridgeOpt" : String) = "Bridge")]
  apply List.filter_congr
  intro p _
  simp [matchConds, matchCond]

theorem deleteTxn_Root (db : DBState) (bn u r0 : String) :
    (transact db (deleteBridgeOps bn u r0)).2 "Open_vSwitch"
      = (db "Open_vSwitch").map (fun p => if p.1 = r0 then (p.1, rowRemoveBridges p.2 u) else p) := by
  simp only [transact, deleteBridgeOps, delRowsOp, mutOp, runOp, List.foldl_cons, List.foldl_nil]
  rw [if_pos trivial,
      if_neg (by decide : ¬ ("Open_vSwitch" : String) = "BridgeOpt"),
      if_neg (by decide : ¬ ("Open_vSwitch" : String) = "Bridge")]
  apply List.map_congr_left
  intro p _
  have hcond : (matchConds p.1 p.2 [⟨"_uuid", Value.uuid r0⟩] = true) ↔ p.1 = r0 := by
    simp [matchConds, matchCond]
    exact eq_comm
  have hmut : applyMutations [⟨"bridges", Mutator.delete, [u]⟩] p.2 = rowRemoveBridges p.2 u := by
    show applyMutation ⟨"bridges", Mutator.delete, [u]⟩ p.2 = rowRemoveBridges p.2 u
    exact applyMutation_del_bridges p.2 u
  by_cases hp : p.1 = r0
  · rw [if_pos (hcond.mpr hp), if_pos hp, hmut]
  · rw [if_neg (fun hc => hp (hcond.mp hc)), if_neg hp]

theorem deleteTxn_other (db : DBState) (bn u r0 : String) (t : String)
    (h1 : t ≠ "Bridge") (h2 : t ≠ "BridgeOpt") (h3 : t ≠ "Open_vSwitch") :
    (transact db (deleteBridgeOps bn u r0)).2 t = db t := by
  simp only [transact, deleteBridgeOps, delRowsOp, mutOp, runOp, List.foldl_cons, List.foldl_nil]
  rw [if_neg h3, if_neg h2, if_neg h1]

/-- Claim C5: the deleteBridge transaction consists exactly of the
Bridge-row delete by name, the BridgeOpt-row delete by name, and the
mutation removing only the cached bridge identifier from the bridges set
of the root row: every Bridge and BridgeOpt row of another name and
every other bridge identifier survives, every other table is untouched;
and when no identifier for the name is cached, the call fails fast with
the database untouched and no delete transaction submitted. -/
theorem claim_C5 : ∀ cache db bridgeName res,
    deleteBridge cache db bridgeName = some res →
    (getBridgeUUIDForName cache bridgeName = "" →
        res.2.2 = false ∧ res.2.1 = db ∧ exceptOk res.1 = false)
    ∧ (getBridgeUUIDForName cache bridgeName ≠ "" →
        res.2.2 = true ∧ exceptOk res.1 = true ∧
        res.2.1 "Bridge" = (db "Bridge").filter (fun p => ¬ List.lookup "name" p.2 = some (Value.str bridgeName)) ∧
        res.2.1 "BridgeOpt" = (db "BridgeOpt").filter (fun p => ¬ List.lookup "name" p.2 = some (Value.str bridgeName)) ∧
        res.2.1 "Open_vSwitch" = (db "Open_vSwitch").map (fun p =>
            if p.1 = getRootUUID cache then
              (p.1, rowRemoveBridges p.2 (getBridgeUUIDForName cache bridgeName)) else p) ∧
        ∀ t, t ≠ "Bridge" → t ≠ "BridgeOpt" → t ≠ "Open_vSwitch" → res.2.1 t = db t) := by
  intro cache db bridgeName res h
  unfold deleteBridge at h
  cases hst : getBridgeServiceType db bridgeName with
  | none => rw [hst] at h; exact absurd h (by simp)
  | some st =>
      rw [hst] at h
      by_cases huuid : getBridgeUUIDForName cache bridgeName = ""
      · simp only [if_pos huuid] at h
        obtain rfl := Option.some.inj h
        refine ⟨fun _ => ⟨rfl, rfl, rfl⟩, fun hne => absurd huuid hne⟩
      · simp only [if_neg huuid] at h
        have hval : (match checkDeleteReply
              (deleteBridgeOps bridgeName (getBridgeUUIDForName cache bridgeName) (getRootUUID cache))
              (transact db (deleteBridgeOps bridgeName (getBridgeUUIDForName cache bridgeName)
                (getRootUUID cache))).1 with
            | Except.error e => some (Except.error e,
                (transact db (deleteBridgeOps bridgeName (getBridgeUUIDForName cache bridgeName)
                  (getRootUUID cache))).2, true)
            | Except.ok _ => some (Except.ok (),
                (transact db (deleteBridgeOps bridgeName (getBridgeUUIDForName cache bridgeName)
                  (getRootUUID cache))).2, true))
            = some (Except.ok (),
                (transact db (deleteBridgeOps bridgeName (getBridgeUUIDForName cache bridgeName)
                  (getRootUUID cache))).2, true) := rfl
        rw [hval] at h
        obtain rfl := Option.some.inj h
        refine ⟨fun heq => absurd heq huuid, fun _ => ?_⟩
        exact ⟨rfl, rfl,
          deleteTxn_Bridge db bridgeName (getBridgeUUIDForName cache bridgeName) (getRootUUID cache),
          deleteTxn_BridgeOpt db bridgeName (getBridgeUUIDForName cache bridgeName) (getRootUUID cache),
          deleteTxn_Root db bridgeName (getBridgeUUIDForName cache bridgeName) (getRootUUID cache),
          fun t h1 h2 h3 => deleteTxn_other db bridgeName (getBridgeUUIDForName cache bridgeName)
            (getRootUUID cache) t h1 h2 h3⟩

theorem claim_C5_witness :
    (deleteBridge exCacheBr exDb "ovsbr-28174").map (fun r => (r.2.2, exceptOk r.1)) = some (true, true) := by
  obtain ⟨res, hres⟩ : ∃ r, deleteBridge exCacheBr exDb "ovsbr-28174" = some r := ⟨_, rfl⟩
  have h := (claim_C5 exCacheBr exDb "ovsbr-28174" res hres).2 (by decide)
  rw [hres, Option.map_some']
  rw [h.1, h.2.1]

/-- Claim C9: a gateway-type create request (sgw or pgw) is rejected with
an error before any NetworkState is stored or any bridge is created when
the network name option is absent or the companion-process count is not
zero; non-gateway types always pass the check.  The well-formedness
hypotheses rule out the request shapes on which the parsing helpers
would panic before reaching the check. -/
theorem claim_C9 :
    (∀ cache db k networks (r : CreateNetworkRequest) psOutput ty nm,
        (getBridgeName r).isSome = true →
        (getGatewayIP r).isSome = true →
        (getBindInterface r).isSome = true →
        getNetworkType r = some ty →
        isGatewayType ty = true →
        getNetworkName r = some nm →
        (nm = "" ∨ psOutput ≠ "0") →
        isRejectedUnchanged (CreateNetwork cache db k networks r psOutput) networks db k)
    ∧ ∀ t n ps, isGatewayType t = false → checkExecutable t n ps = Except.ok () := by
  constructor
  · intro cache db k networks r psOutput ty nm hbn hgw hbi hty hgate hnm hprec
    have hchk : ∃ e, checkExecutable ty nm psOutput = Except.error e := by
      unfold checkExecutable
      have hsgw : ¬ (¬ (eqFold ty type_sgw = true) ∧ ¬ (eqFold ty type_pgw = true)) := by
        unfold isGatewayType at hgate
        rcases Bool.or_eq_true_iff.mp hgate with h | h <;> simp [h]
      rw [if_neg hsgw]
      by_cases hlen : nm.length ≤ 0
      · rw [if_pos hlen]
        exact ⟨_, rfl⟩
      · rw [if_neg hlen]
        have hps : ¬ psOutput = "0" := by
          rcases hprec with h | h
          · exact absurd (by simp [h]) hlen
          · exact h
        rw [if_neg hps]
        exact ⟨_, rfl⟩
    unfold CreateNetwork
    cases hb : getBridgeName r with
    | none => rw [hb] at hbn; exact absurd hbn (by simp)
    | some bridgeName =>
        cases hm : getBridgeMode r with
        | error e => exact ⟨rfl, rfl, rfl⟩
        | ok mode =>
            cases hg : getGatewayIP r with
            | none => rw [hg] at hgw; exact absurd hgw (by simp)
            | some gres =>
                cases gres with
                | error e => exact ⟨rfl, rfl, rfl⟩
                | ok gm =>
                    cases hbif : getBindInterface r with
                    | none => rw [hbif] at hbi; exact absurd hbi (by simp)
                    | some bindInterface =>
                        obtain ⟨e, he⟩ := hchk
                        simp only [hnm, hty, he]
                        exact ⟨rfl, rfl, rfl⟩
  · intro t n ps hng
    unfold checkExecutable
    have : ¬ (eqFold t type_sgw = true) ∧ ¬ (eqFold t type_pgw = true) := by
      unfold isGatewayType at hng
      rcases Bool.or_eq_false_iff.mp hng with ⟨h1, h2⟩
      simp [h1, h2]
    rw [if_pos this]

theorem monitorRows_all_deleted (cache : DBState) :
    ∀ (rows : TableUpdate) (db : DBState) (cs : List RecreateCall),
      (∀ p ∈ rows, (p.2 : RowUpdate).new = []) →
      monitorRows cache db cs rows = some (db, cs) := by
  intro rows
  induction rows with
  | nil => intro db cs _; rfl
  | cons p rest ih =>
      intro db cs h
      have hp : p.2.new = [] := h p (by simp)
      rw [monitorRows]
      have hrow : monitorBridgeRow cache db cs p.2 = some (db, cs) := by
        unfold monitorBridgeRow
        rw [if_neg (by simp [hp])]
      rw [hrow]
      exact ih db cs (fun q hq => h q (by simp [hq]))

theorem monitorTables_all_deleted (cache : DBState) :
    ∀ (u : TableUpdates) (db : DBState) (cs : List RecreateCall),
      (∀ q ∈ u, q.1 = "Bridge" → ∀ p ∈ q.2, (p.2 : RowUpdate).new = []) →
      monitorTables cache db cs u = some (db, cs) := by
  intro u
  induction u with
  | nil => intro db cs _; rfl
  | cons q rest ih =>
      intro db cs h
      rw [monitorTables]
      by_cases hq : q.1 = "Bridge"
      · rw [if_pos hq]
        rw [monitorRows_all_deleted cache q.2 db cs (h q (by simp) hq)]
        exact ih db cs (fun q' hq' => h q' (by simp [hq']))
      · rw [if_neg hq]
        exact ih db cs (fun q' hq' => h q' (by simp [hq']))

/-- Claim C1 fails on the code: the watcher guard is
reflect.DeepEqual-negated the other way round, so a Bridge-table event
whose new image is empty (a deletion of bridge br0, with the name in the
old image) triggers no re-creation at all: the re-creation call list is
empty. -/
theorem claim_C1_counterexample :
    (monitorStep emptyDB exDb [("Bridge", [("u1", ⟨[("name", Value.str "br0")], []⟩)])]).map
      (fun dc => dc.2) = some [] := rfl

/-- Claim C1 amended: the watcher re-creates bridge metadata exactly for
Bridge-table rows whose new image is non-empty and whose old image
carries a string name (re-deriving service type and network id in
BridgeOpt with the sentinel fallback inside recreateOne), and performs
no re-creation for rows whose new image is empty. -/
theorem claim_C1_amended :
    (∀ cache db (u : TableUpdates),
        (∀ q ∈ u, q.1 = "Bridge" → ∀ p ∈ q.2, (p.2 : RowUpdate).new = []) →
        monitorStep cache db u = some (db, []))
    ∧ ∀ cache db uuid (ru : RowUpdate) name,
        ru.new ≠ [] →
        List.lookup "name" ru.old = some (Value.str name) →
        monitorStep cache db [("Bridge", [(uuid, ru)])] =
          (recreateOne cache db name).map (fun dc => (dc.1, [dc.2])) := by
  constructor
  · intro cache db u h
    exact monitorTables_all_deleted cache u db [] h
  · intro cache db uuid ru name hn hname
    cases hrec : recreateOne cache db name with
    | none =>
        simp [monitorStep, monitorTables, monitorRows, monitorBridgeRow, hn, hname, hrec]
    | some dc =>
        simp [monitorStep, monitorTables, monitorRows, monitorBridgeRow, hn, hname, hrec]

theorem claim_C1_witness :
    monitorStep emptyDB exDb [("Bridge", [("u2", ⟨[("name", Value.str "br1")], []⟩)])] = some (exDb, [])
    ∧ monitorStep emptyDB emptyDB
        [("Bridge", [("u1", ⟨[("name", Value.str "br0")], [("name", Value.str "br0")]⟩)])] =
      (recreateOne emptyDB emptyDB "br0").map (fun dc => (dc.1, [dc.2])) := by
  constructor
  · exact claim_C1_amended.1 emptyDB exDb _
      (by intro q hq hqb p hp; simp at hq; subst hq; simp at hp; subst hp; rfl)
  · exact claim_C1_amended.2 emptyDB emptyDB "u1" ⟨[("name", Value.str "br0")], [("name", Value.str "br0")]⟩
      "br0" (by simp) rfl

theorem claim_C9_witness :
    isRejectedUnchanged (CreateNetwork emptyDB emptyDB [] [] exGwRequest "0") [] emptyDB []
    ∧ checkExecutable "plain" "n" "7" = Except.ok () := by
  constructor
  · exact claim_C9.1 emptyDB emptyDB [] [] exGwRequest "0" "sgw" ""
      rfl rfl rfl rfl (by decide) rfl (Or.inl rfl)
  · exact claim_C9.2 "plain" "n" "7" (by decide)

theorem match_none_id {α : Type} (x : Option α) :
    (match x with | some r => some r | none => (none : Option α)) = x := by
  cases x <;> rfl

theorem ovr_override {α β : Type} (g : β → Option α) :
    ∀ (l : List β) (a : Option α),
      ovr g l a = match ovr g l none with | some r => some r | none => a := by
  intro l
  induction l with
  | nil => intro a; cases a <;> rfl
  | cons x l ih =>
      intro a
      have h1 : ovr g (x :: l) a = ovr g l (match g x with | some r => some r | none => a) := rfl
      have h2 : ovr g (x :: l) none
          = ovr g l (match g x with | some r => some r | none => (none : Option α)) := rfl
      rw [h1, h2, ih (match g x with | some r => some r | none => a),
        ih (match g x with | some r => some r | none => none)]
      cases hO : ovr g l none with
      | some r => rfl
      | none => cases hg : g x <;> rfl

theorem ovr_cons {α β : Type} (g : β → Option α) (x : β) (l : List β) (a : Option α) :
    ovr g (x :: l) a = match ovr g l none with
      | some r => some r
      | none => match g x with | some r => some r | none => a := by
  have h1 : ovr g (x :: l) a = ovr g l (match g x with | some r => some r | none => a) := rfl
  rw [h1, ovr_override]

theorem ovr_eq_none_iff {α β : Type} (g : β → Option α) :
    ∀ (l : List β), ovr g l none = none ↔ ∀ x ∈ l, g x = none := by
  intro l
  induction l with
  | nil => simp [ovr]
  | cons x l ih =>
      rw [ovr_cons]
      cases hO : ovr g l none with
      | some r =>
          simp only []
          constructor
          · intro h; exact absurd h (by simp)
          · intro h
            have hn := ih.mpr (fun y hy => h y (by simp [hy]))
            rw [hn] at hO
            exact absurd hO (by simp)
      | none =>
          simp only []
          have hall := ih.mp hO
          constructor
          · intro h y hy
            rcases List.mem_cons.mp hy with rfl | hy
            · cases hgx : g y with
              | none => rfl
              | some r => rw [hgx] at h; exact absurd h (by simp)
            · exact hall y hy
          · intro h
            rw [h x (by simp)]

theorem ovr_all_none {α β : Type} (g : β → Option α) :
    ∀ (l : List β) (a : Option α), (∀ x ∈ l, g x = none) → ovr g l a = a := by
  intro l a h
  rw [ovr_override, (ovr_eq_none_iff g l).mpr h]

theorem lastNewRow_singleton (w : String) (ru : RowUpdate) (u : String) :
    lastNewRow [(w, ru)] u = if w = u then some ru.new else none := by
  by_cases hw : w = u <;> simp [lastNewRow, ovr, hw]

theorem lastNewRow_cons (p : String × RowUpdate) (tu : TableUpdate) (u : String) :
    lastNewRow (p :: tu) u
      = match lastNewRow tu u with
        | some r => some r
        | none => if p.1 = u then some p.2.new else none := by
  unfold lastNewRow
  rw [ovr_cons]
  cases hO : ovr (fun q => if q.1 = u then some q.2.new else none) tu none with
  | some r => rfl
  | none => rw [match_none_id]

theorem lastNewBatch_cons (q : String × TableUpdate) (b : TableUpdates) (t u : String) :
    lastNewBatch (q :: b) t u
      = match lastNewBatch b t u with
        | some r => some r
        | none => if q.1 = t then lastNewRow q.2 u else none := by
  unfold lastNewBatch
  rw [ovr_cons]
  cases hO : ovr (fun q2 => if q2.1 = t then lastNewRow q2.2 u else none) b none with
  | some r => rfl
  | none => rw [match_none_id]

theorem lastNewAll_cons (b : TableUpdates) (bs : List TableUpdates) (t u : String) :
    lastNewAll (b :: bs) t u
      = match lastNewAll bs t u with
        | some r => some r
        | none => lastNewBatch b t u := by
  unfold lastNewAll
  rw [ovr_cons]
  cases hO : ovr (fun b2 => lastNewBatch b2 t u) bs none with
  | some r => rfl
  | none => rw [match_none_id]

theorem cacheGet_applyRowUpdate (tbl : String) (c : DBState) (p : String × RowUpdate) (t u : String) :
    cacheGet (applyRowUpdate tbl c p) t u =
      if t = tbl ∧ u = p.1 then (if p.2.new = [] then none else some p.2.new)
      else cacheGet c t u := by
  unfold applyRowUpdate
  by_cases hnew : p.2.new = []
  · rw [if_pos hnew]
    show List.lookup u (if t = tbl then rowDel (c t) p.1 else c t) = _
    by_cases ht : t = tbl
    · rw [if_pos ht]
      by_cases hu : u = p.1
      · rw [if_pos (⟨ht, hu⟩ : _ ∧ _), if_pos hnew, hu]
        exact lookup_filter_key_self (c t) p.1
      · rw [if_neg (fun hand => hu hand.2)]
        exact lookup_filter_key_ne (c t) u p.1 hu
    · rw [if_neg ht, if_neg (fun hand => ht hand.1)]
      rfl
  · rw [if_neg hnew]
    show List.lookup u (if t = tbl then rowSet (c t) p.1 p.2.new else c t) = _
    by_cases ht : t = tbl
    · rw [if_pos ht]
      by_cases hu : u = p.1
      · rw [if_pos (⟨ht, hu⟩ : _ ∧ _), if_neg hnew]
        show List.lookup u ((p.1, p.2.new) :: (c t).filter (fun q => q.1 ≠ p.1)) = some p.2.new
        rw [List.lookup_cons]
        have hbe : (u == p.1) = true := beq_iff_eq.mpr hu
        rw [hbe]
      · rw [if_neg (fun hand => hu hand.2)]
        show List.lookup u ((p.1, p.2.new) :: (c t).filter (fun q => q.1 ≠ p.1)) = List.lookup u (c t)
        rw [List.lookup_cons]
        have hne : (u == p.1) = false := beq_eq_false_iff_ne.mpr hu
        rw [hne]
        exact lookup_filter_key_ne (c t) u p.1 hu
    · rw [if_neg ht, if_neg (fun hand => ht hand.1)]
      rfl

theorem cacheGet_rows (tbl : String) :
    ∀ (tu : TableUpdate) (c : DBState) (t u : String),
      cacheGet (tu.foldl (applyRowUpdate tbl) c) t u =
        match lastNewRow tu u with
        | none => cacheGet c t u
        | some r => if t = tbl then (if r = [] then none else some r) else cacheGet c t u := by
  intro tu
  induction tu with
  | nil => intro c t u; rfl
  | cons p tu ih =>
      intro c t u
      rw [List.foldl_cons, ih (applyRowUpdate tbl c p) t u, lastNewRow_cons]
      cases hl : lastNewRow tu u with
      | some r =>
          dsimp only
          by_cases ht : t = tbl
          · rw [if_pos ht, if_pos ht]
          · rw [if_neg ht, if_neg ht, cacheGet_applyRowUpdate,
              if_neg (fun hand => ht hand.1)]
      | none =>
          dsimp only
          rw [cacheGet_applyRowUpdate]
          by_cases hp : p.1 = u
          · rw [if_pos hp]
            dsimp only
            by_cases ht : t = tbl
            · rw [if_pos (⟨ht, hp.symm⟩ : _ ∧ _), if_pos ht]
            · rw [if_neg (fun hand => ht hand.1), if_neg ht]
          · rw [if_neg hp]
            dsimp only
            rw [if_neg (fun hand => hp hand.2.symm)]

theorem cacheGet_populate :
    ∀ (b : TableUpdates) (c : DBState) (t u : String),
      cacheGet (populateCache c b) t u =
        match lastNewBatch b t u with
        | none => cacheGet c t u
        | some r => if r = [] then none else some r := by
  intro b
  induction b with
  | nil => intro c t u; rfl
  | cons q b ih =>
      intro c t u
      rw [show populateCache c (q :: b) = populateCache (applyTableUpdate c q) b from rfl,
        ih (applyTableUpdate c q) t u, lastNewBatch_cons]
      cases hl : lastNewBatch b t u with
      | some r => rfl
      | none =>
          dsimp only
          rw [show applyTableUpdate c q = q.2.foldl (applyRowUpdate q.1) c from rfl,
            cacheGet_rows q.1 q.2 c t u]
          by_cases hq : q.1 = t
          · rw [if_pos hq]
            cases hr : lastNewRow q.2 u with
            | none => rfl
            | some r =>
                dsimp only
                rw [if_pos hq.symm]
          · rw [if_neg hq]
            dsimp only
            cases hr : lastNewRow q.2 u with
            | none => rfl
            | some r =>
                dsimp only
                rw [if_neg (fun h => hq h.symm)]

theorem cacheGet_replay :
    ∀ (bs : List TableUpdates) (c : DBState) (t u : String),
      cacheGet (replayAll c bs) t u =
        match lastNewAll bs t u with
        | none => cacheGet c t u
        | some r => if r = [] then none else some r := by
  intro bs
  induction bs with
  | nil => intro c t u; rfl
  | cons b bs ih =>
      intro c t u
      rw [show replayAll c (b :: bs) = replayAll (populateCache c b) bs from rfl,
        ih (populateCache c b) t u, lastNewAll_cons]
      cases hl : lastNewAll bs t u with
      | some r => rfl
      | none =>
          dsimp only
          rw [cacheGet_populate b c t u]

theorem lastNewRow_ne_none {tu : TableUpdate} {u : String} (h : lastNewRow tu u ≠ none) :
    ∃ p ∈ tu, p.1 = u := by
  by_contra hc
  push_neg at hc
  exact h ((ovr_eq_none_iff _ tu).mpr (fun p hp => by rw [if_neg (hc p hp)]))

theorem lastNewBatch_ne_none {b : TableUpdates} {t u : String} (h : lastNewBatch b t u ≠ none) :
    ∃ q ∈ b, q.1 = t ∧ lastNewRow q.2 u ≠ none := by
  by_contra hc
  push_neg at hc
  refine h ((ovr_eq_none_iff _ b).mpr (fun q hq => ?_))
  by_cases hqt : q.1 = t
  · rw [if_pos hqt]
    exact hc q hq hqt
  · rw [if_neg hqt]

theorem lastNewAll_ne_none {bs : List TableUpdates} {t u : String} (h : lastNewAll bs t u ≠ none) :
    ∃ b ∈ bs, lastNewBatch b t u ≠ none := by
  by_contra hc
  push_neg at hc
  exact h ((ovr_eq_none_iff _ bs).mpr hc)

theorem lastNewAll_mem_allKeys {bs : List TableUpdates} {t u : String}
    (h : lastNewAll bs t u ≠ none) : (t, u) ∈ allKeys bs := by
  obtain ⟨b, hb, hbb⟩ := lastNewAll_ne_none h
  obtain ⟨q, hq, hqt, hqr⟩ := lastNewBatch_ne_none hbb
  obtain ⟨p, hp, hpu⟩ := lastNewRow_ne_none hqr
  unfold allKeys
  rw [List.mem_dedup, List.mem_flatMap]
  exact ⟨b, hb, List.mem_flatMap.mpr ⟨q, hq, List.mem_map.mpr ⟨p, hp, by rw [hqt, hpu]⟩⟩⟩

theorem mem_allKeys_lastNewAll_ne {bs : List TableUpdates} {t u : String}
    (h : (t, u) ∈ allKeys bs) : lastNewAll bs t u ≠ none := by
  unfold allKeys at h
  rw [List.mem_dedup, List.mem_flatMap] at h
  obtain ⟨b, hb, hbm⟩ := h
  rw [List.mem_flatMap] at hbm
  obtain ⟨q, hq, hqm⟩ := hbm
  rw [List.mem_map] at hqm
  obtain ⟨p, hp, hpe⟩ := hqm
  obtain ⟨hqt, hpu⟩ : q.1 = t ∧ p.1 = u := by
    constructor <;> [exact congrArg Prod.fst hpe; exact congrArg Prod.snd hpe]
  have hrow : lastNewRow q.2 u ≠ none := by
    intro hn
    have := (ovr_eq_none_iff _ q.2).mp hn p hp
    rw [if_pos hpu] at this
    exact absurd this (by simp)
  have hbatch : lastNewBatch b t u ≠ none := by
    intro hn
    have := (ovr_eq_none_iff _ b).mp hn q hq
    rw [if_pos hqt] at this
    exact hrow this
  intro hn
  have := (ovr_eq_none_iff _ bs).mp hn b hb
  exact hbatch this

theorem condenseList_cons_none (bs : List TableUpdates) (k : String × String)
    (L : List (String × String)) (h : lastNewAll bs k.1 k.2 = none) :
    condenseList bs (k :: L) = condenseList bs L := by
  unfold condenseList
  simp only [List.filterMap_cons, h, Option.map_none']

theorem condenseList_cons_some (bs : List TableUpdates) (k : String × String)
    (L : List (String × String)) (r : Row) (h : lastNewAll bs k.1 k.2 = some r) :
    condenseList bs (k :: L) = (k.1, [(k.2, (⟨[], r⟩ : RowUpdate))]) :: condenseList bs L := by
  unfold condenseList
  simp only [List.filterMap_cons, h, Option.map_some']

theorem lastNewBatch_condenseList_notmem (bs : List TableUpdates) (t u : String) :
    ∀ (L : List (String × String)), (t, u) ∉ L →
      lastNewBatch (condenseList bs L) t u = none := by
  intro L
  induction L with
  | nil => intro _; rfl
  | cons k L ih =>
      intro hm
      have hk : k ≠ (t, u) := fun h => hm (by simp [h])
      have hL : (t, u) ∉ L := fun h => hm (by simp [h])
      cases hlk : lastNewAll bs k.1 k.2 with
      | none =>
          rw [condenseList_cons_none bs k L hlk]
          exact ih hL
      | some r =>
          rw [condenseList_cons_some bs k L r hlk, lastNewBatch_cons, ih hL]
          dsimp only
          by_cases hkt : k.1 = t
          · rw [if_pos hkt, lastNewRow_singleton]
            have hku : ¬ k.2 = u := by
              intro hku
              exact hk (by rw [← hkt, ← hku])
            rw [if_neg hku]
          · rw [if_neg hkt]

theorem lastNewBatch_condenseList_mem (bs : List TableUpdates) (t u : String) (r : Row)
    (hr : lastNewAll bs t u = some r) :
    ∀ (L : List (String × String)), L.Nodup → (t, u) ∈ L →
      lastNewBatch (condenseList bs L) t u = some r := by
  intro L
  induction L with
  | nil => intro _ hm; exact absurd hm (by simp)
  | cons k L ih =>
      intro hnd hm
      obtain ⟨hknotmem, hndL⟩ := List.nodup_cons.mp hnd
      by_cases hk : k = (t, u)
      · subst hk
        rw [condenseList_cons_some bs (t, u) L r hr, lastNewBatch_cons,
          lastNewBatch_condenseList_notmem bs t u L hknotmem]
        dsimp only
        rw [if_pos rfl, lastNewRow_singleton, if_pos rfl]
      · have hmL : (t, u) ∈ L := by
          rcases List.mem_cons.mp hm with h | h
          · exact absurd h.symm hk
          · exact h
        cases hlk : lastNewAll bs k.1 k.2 with
        | none =>
            rw [condenseList_cons_none bs k L hlk]
            exact ih hndL hmL
        | some r2 =>
            rw [condenseList_cons_some bs k L r2 hlk, lastNewBatch_cons, ih hndL hmL]

theorem lastNewBatch_condense (bs : List TableUpdates) (t u : String) :
    lastNewBatch (condense bs) t u = lastNewAll bs t u := by
  cases h : lastNewAll bs t u with
  | none =>
      have hnm : (t, u) ∉ allKeys bs := fun hmem => mem_allKeys_lastNewAll_ne hmem h
      exact lastNewBatch_condenseList_notmem bs t u (allKeys bs) hnm
  | some r =>
      exact lastNewBatch_condenseList_mem bs t u r h (allKeys bs) (List.nodup_dedup _)
        (lastNewAll_mem_allKeys (by rw [h]; simp))

/-- Claim C2: replaying any sequence of update batches into an empty
cache produces the same cache contents (per table and row identifier) as
applying the single condensed batch that holds only the last new image
per row; and a batch entry whose last new image is the empty row leaves
the key absent. -/
theorem claim_C2 :
    (∀ (bs : List TableUpdates) (t u : String),
        cacheGet (replayAll emptyDB bs) t u = cacheGet (populateCache emptyDB (condense bs)) t u)
    ∧ (∀ (c : DBState) (b : TableUpdates) (t u : String),
        lastNewBatch b t u = some [] → cacheGet (populateCache c b) t u = none) := by
  constructor
  · intro bs t u
    rw [cacheGet_replay bs emptyDB t u, cacheGet_populate (condense bs) emptyDB t u,
      lastNewBatch_condense bs t u]
  · intro c b t u h
    rw [cacheGet_populate b c t u, h]
    rfl

theorem claim_C2_witness :
    cacheGet (replayAll emptyDB
        [[("T", [("u1", ⟨[], [("c", Value.str "v")]⟩)])], [("T", [("u1", ⟨[], []⟩)])]]) "T" "u1"
      = cacheGet (populateCache emptyDB (condense
        [[("T", [("u1", ⟨[], [("c", Value.str "v")]⟩)])], [("T", [("u1", ⟨[], []⟩)])]])) "T" "u1"
    ∧ cacheGet (populateCache (fun t => if t = "T" then [("u1", [("c", Value.str "v")])] else [])
        [("T", [("u1", ⟨[], []⟩)])]) "T" "u1" = none := by
  constructor
  · exact claim_C2.1 [[("T", [("u1", ⟨[], [("c", Value.str "v")]⟩)])], [("T", [("u1", ⟨[], []⟩)])]]
      "T" "u1"
  · exact claim_C2.2 (fun t => if t = "T" then [("u1", [("c", Value.str "v")])] else [])
      [("T", [("u1", ⟨[], []⟩)])] "T" "u1" rfl

end OvsPlugin
